import Mathlib

/-!
Verification of the youtube-summary command-line tool.

The Rust sources are shallowly embedded here.  A Rust `&str`/`String` is
modelled as a `List Char` (`RStr`): Rust's `str::len` counts UTF-8 bytes,
so it is modelled by `rustLen` (sum of per-character encoded widths)
rather than the list length, and byte slicing is modelled by `byteSlice`,
which fails (`none`, modelling a panic) off a character boundary.
Filesystem and network effects are passed in explicitly: file contents are
`Option RStr` parameters (`none` = file absent), HTTP responses are
status/body parameters, and the external JSON codec (serde) is an
abstract parse-function parameter.
-/

namespace YtSum

/-- A Rust string, modelled as its list of Unicode scalar values. -/
abbrev RStr := List Char

/-- Literal helper: the model of a Rust string literal. -/
def str (s : String) : RStr := s.toList

/-- Number of bytes in the UTF-8 encoding of one character
(Rust `char::len_utf8`). -/
def utf8Width (c : Char) : Nat :=
  if c.toNat < 0x80 then 1
  else if c.toNat < 0x800 then 2
  else if c.toNat < 0x10000 then 3
  else 4

/-- Rust `str::len`: the length of a string in UTF-8 bytes. -/
def rustLen : RStr → Nat
  | [] => 0
  | c :: t => utf8Width c + rustLen t

/-- Whitespace as used by Rust `str::trim` (modelled on the ASCII
whitespace characters, the only ones our inputs contain). -/
def isWS (c : Char) : Bool :=
  c == ' ' || c == '\t' || c == '\n' || c == '\r'

/-- Drop matching characters from the end of a list. -/
def dropTrailingWhile (p : Char → Bool) (l : RStr) : RStr :=
  (l.reverse.dropWhile p).reverse

/-- Drop matching characters from both ends of a list. -/
def trimWhile (p : Char → Bool) (l : RStr) : RStr :=
  dropTrailingWhile p (l.dropWhile p)

/-- Rust `str::trim`. -/
def listTrim (l : RStr) : RStr := trimWhile isWS l

/-- Rust `str::trim_matches` with a single-character pattern: removes all
leading and all trailing occurrences of that character. -/
def trimMatchesC (c : Char) (l : RStr) : RStr :=
  trimWhile (fun a => a == c) l

/-- Prefix test on character lists (Rust `str::starts_with` with a string
pattern, used on aligned character data). -/
def isPrefixC : RStr → RStr → Bool
  | [], _ => true
  | _ :: _, [] => false
  | a :: as, b :: bs => a == b && isPrefixC as bs

/-- Rust `str::contains` with a string pattern. -/
def containsSeq (hay needle : RStr) : Bool :=
  match hay with
  | [] => isPrefixC needle []
  | a :: t => isPrefixC needle (a :: t) || containsSeq t needle

/-- Rust `str::find` followed by slicing off everything up to and
including the first occurrence of `needle`: the suffix of `hay` that
starts right after that occurrence, or `none` when `needle` does not
occur.  (In the sources the slice start is always `pos + needle.len()`,
a character boundary, so the suffix is well defined.) -/
def splitAtFirst (needle : RStr) (hay : RStr) : Option RStr :=
  match hay with
  | [] => if isPrefixC needle [] then some [] else none
  | a :: t =>
    if isPrefixC needle (a :: t) then some ((a :: t).drop needle.length)
    else splitAtFirst needle t

/-- Rust `str::split_once`: split at the first occurrence of `c`. -/
def splitOnceC (c : Char) : RStr → Option (RStr × RStr)
  | [] => none
  | a :: t =>
    if a == c then some ([], t)
    else (splitOnceC c t).map (fun kv => (a :: kv.1, kv.2))

/-- Rust `str::starts_with` with a `char` pattern. -/
def startsWithChar (l : RStr) (c : Char) : Bool :=
  match l with
  | [] => false
  | a :: _ => a == c

/-- Split a list at every occurrence of `c` (Rust `str::split`).  The
result is always nonempty. -/
def splitChar (c : Char) : RStr → List RStr
  | [] => [[]]
  | a :: t =>
    match splitChar c t with
    | [] => [[]]
    | h :: r => if a == c then [] :: h :: r else (a :: h) :: r

/-- Remove one trailing carriage return, if present. -/
def stripCR (l : RStr) : RStr :=
  match l.reverse with
  | '\r' :: t => t.reverse
  | _ => l

/-- Rust `str::lines`: split at `\n`, dropping a final empty piece, and
strip one `\r` from every line that was terminated by `\n`. -/
def rustLines (s : RStr) : List RStr :=
  let parts := splitChar '\n' s
  parts.dropLast.map stripCR ++
    (match parts.getLast? with
     | some [] => []
     | some l => [l]
     | none => [])

/-- Rust `Vec::join` / slice `join` on strings. -/
def intercalateC (sep : RStr) : List RStr → RStr
  | [] => []
  | [x] => x
  | x :: y :: rest => x ++ sep ++ intercalateC sep (y :: rest)

/-- Decimal rendering of a natural number, as a character list. -/
def natRepr (n : Nat) : RStr := (Nat.repr n).toList

/-- Rust `char::is_alphanumeric` (Unicode `Alphabetic` or `Number`).
Modelled exactly on code points up to U+00FF: ASCII digits and letters,
the Latin-1 ordinal indicators U+00AA/U+00BA, micro sign U+00B5, the
superscript digits U+00B2/U+00B3/U+00B9, the vulgar fractions
U+00BC–U+00BE, and the Latin-1 letters U+00C0–U+00FF minus the two
operators `×` (U+00D7) and `÷` (U+00F7).  Code points above U+00FF are
under-approximated as `false`; no input considered here uses them. -/
def rustIsAlphanumeric (c : Char) : Bool :=
  let n := c.toNat
  (0x30 ≤ n && n ≤ 0x39) || (0x41 ≤ n && n ≤ 0x5A) || (0x61 ≤ n && n ≤ 0x7A) ||
  (0xC0 ≤ n && n ≤ 0xFF && n != 0xD7 && n != 0xF7) ||
  n == 0xAA || n == 0xB2 || n == 0xB3 || n == 0xB5 || n == 0xB9 ||
  n == 0xBA || n == 0xBC || n == 0xBD || n == 0xBE

/-- The character class accepted inside a video id:
`c.is_alphanumeric() || c == '-' || c == '_'`. -/
def rustAllowed (c : Char) : Bool :=
  rustIsAlphanumeric c || c == '-' || c == '_'

/-- ASCII-only version of `rustAllowed`: ASCII alphanumeric, `-` or `_`. -/
def asciiAllowed (c : Char) : Bool :=
  (0x30 ≤ c.toNat && c.toNat ≤ 0x39) || (0x41 ≤ c.toNat && c.toNat ≤ 0x5A) ||
  (0x61 ≤ c.toNat && c.toNat ≤ 0x7A) || c == '-' || c == '_'

/-- Rust byte slicing `&s[..k]`: the prefix of `s` occupying exactly `k`
UTF-8 bytes, or `none` (a panic) when `k` is out of bounds or falls
inside the encoding of a character. -/
def byteSlice : RStr → Nat → Option RStr
  | _, 0 => some []
  | [], _ + 1 => none
  | c :: t, k + 1 =>
    if utf8Width c ≤ k + 1 then (byteSlice t (k + 1 - utf8Width c)).map (c :: ·)
    else none

deriving instance DecidableEq for Except

/-- The error taxonomy of `src/error.rs`. -/
inductive Error where
  | InvalidYoutubeUrl : RStr → Error
  | TranscriptFetch : RStr → Error
  | ApiRequest : RStr → Error
  | Config : RStr → Error
deriving DecidableEq

/-! ## src/transcript.rs -/

/-- `extract_from_watch_url` (src/transcript.rs:68–83). -/
def extract_from_watch_url (url : RStr) : Option RStr :=
  if containsSeq url (str "youtube.com/watch") then
    match splitAtFirst (str "v=") url with
    | some rest =>
      let id := rest.takeWhile rustAllowed
      if rustLen id == 11 then some id else none
    | none => none
  else none

/-- `extract_from_short_url` (src/transcript.rs:85–100). -/
def extract_from_short_url (url : RStr) : Option RStr :=
  if containsSeq url (str "youtu.be/") then
    match splitAtFirst (str "youtu.be/") url with
    | some rest =>
      let id := rest.takeWhile rustAllowed
      if rustLen id == 11 then some id else none
    | none => none
  else none

/-- `extract_from_embed_url` (src/transcript.rs:102–117).  Note that the
guard checks for `youtube.com/embed/` but the extraction point is the
first occurrence of `/embed/`. -/
def extract_from_embed_url (url : RStr) : Option RStr :=
  if containsSeq url (str "youtube.com/embed/") then
    match splitAtFirst (str "/embed/") url with
    | some rest =>
      let id := rest.takeWhile rustAllowed
      if rustLen id == 11 then some id else none
    | none => none
  else none

/-- `extract_video_id` (src/transcript.rs:30–66). -/
def extract_video_id (url : RStr) : Except Error RStr :=
  let url := listTrim url
  if rustLen url == 11 && url.all rustAllowed then .ok url
  else
    match extract_from_watch_url url with
    | some id => .ok id
    | none =>
      match extract_from_short_url url with
      | some id => .ok id
      | none =>
        match extract_from_embed_url url with
        | some id => .ok id
        | none => .error (.InvalidYoutubeUrl (str "Could not extract video ID from: " ++ url))

/-- The pure tail of `fetch_transcript` (src/transcript.rs:16–27): given
the snippet texts returned by the external transcript API, join them with
single spaces and reject an empty result. -/
def transcriptFromSnippets (snippets : List RStr) : Except Error RStr :=
  let text := intercalateC (str " ") snippets
  if text == [] then .error (.TranscriptFetch (str "Transcript is empty"))
  else .ok text

/-! ## src/cli.rs -/

/-- The CLI argument record (src/cli.rs:5–14). -/
structure Args where
  url : Option RStr
  prompt : Option RStr
  model : Option RStr
  api_key : Option RStr
  config_path : Option RStr
  verbose : Bool
  list_models : Option (Option RStr)
deriving DecidableEq

/-- `DEFAULT_MODEL` (src/openrouter.rs:9). -/
def DEFAULT_MODEL : RStr := str "anthropic/claude-haiku-4.5"

/-- The help text built by `Args::usage` (src/cli.rs:108–135). -/
def usageText : RStr :=
  str "Usage: youtube-summary [OPTIONS] [URL]\n\nArguments:\n  [URL]                     YouTube video URL (required unless --list-models)\n\nOptions:\n  -p, --prompt <PROMPT>     Custom prompt for the summary\n  -m, --model <MODEL>       OpenRouter model ID (default: " ++
  DEFAULT_MODEL ++
  str ")\n  -k, --api-key <KEY>       OpenRouter API key (overrides env/config)\n  -c, --config <PATH>       Path to config file\n  -l, --list-models [TERM]  List available models (optionally filter by TERM)\n  -v, --verbose             Show verbose output\n  -h, --help                Show this help message\n\nEnvironment:\n  OPENROUTER_API_KEY        API key for OpenRouter\n\nExamples:\n  youtube-summary \"https://youtube.com/watch?v=VIDEO_ID\"\n  youtube-summary \"https://youtube.com/watch?v=VIDEO_ID\" -m anthropic/claude-sonnet-4\n  youtube-summary --list-models                    # List all models\n  youtube-summary --list-models claude             # List models matching \"claude\"\n  youtube-summary -l gpt -v                        # List GPT models with verbose output"

/-- The argument-scanning loop of `Args::parse` (src/cli.rs:37–90),
walking the arguments after the program name. -/
def parseLoop : List RStr → Args → Except RStr Args
  | [], st => .ok st
  | arg :: rest, st =>
    if arg == str "-p" || arg == str "--prompt" then
      match rest with
      | [] => .error (str "--prompt requires a value")
      | v :: rest2 => parseLoop rest2 { st with prompt := some v }
    else if arg == str "-m" || arg == str "--model" then
      match rest with
      | [] => .error (str "--model requires a value")
      | v :: rest2 => parseLoop rest2 { st with model := some v }
    else if arg == str "-k" || arg == str "--api-key" then
      match rest with
      | [] => .error (str "--api-key requires a value")
      | v :: rest2 => parseLoop rest2 { st with api_key := some v }
    else if arg == str "-c" || arg == str "--config" then
      match rest with
      | [] => .error (str "--config requires a path")
      | v :: rest2 => parseLoop rest2 { st with config_path := some v }
    else if arg == str "-v" || arg == str "--verbose" then
      parseLoop rest { st with verbose := true }
    else if arg == str "-l" || arg == str "--list-models" then
      match rest with
      | v :: rest2 =>
        if startsWithChar v '-' = false then
          parseLoop rest2 { st with list_models := some (some v) }
        else parseLoop (v :: rest2) { st with list_models := some none }
      | [] => parseLoop [] { st with list_models := some none }
    else if startsWithChar arg '-' = false && st.url == none then
      parseLoop rest { st with url := some arg }
    else .error (str "Unknown argument: " ++ arg)

/-- `Args::parse` (src/cli.rs:17–106).  `argv` includes the program name
in position 0, as `env::args` does. -/
def Args.parse (argv : List RStr) : Except RStr Args :=
  if argv.length < 2 then .error usageText
  else if argv.any (fun a => a == str "--help" || a == str "-h") then .error usageText
  else
    match parseLoop (argv.drop 1) ⟨none, none, none, none, none, false, none⟩ with
    | .error e => .error e
    | .ok st =>
      if st.list_models == none && st.url == none then .error (str "YouTube URL is required")
      else .ok st

/-! ## src/config.rs -/

/-- `FileConfig` (src/config.rs:106–110). -/
structure FileConfig where
  api_key : Option RStr
  model : Option RStr
deriving DecidableEq

/-- `Credentials` (src/config.rs:112–115). -/
structure Credentials where
  openrouter_api_key : Option RStr
deriving DecidableEq

/-- The value processing applied to a credentials line
(src/config.rs:141 and src/main.rs:88):
`value.trim().trim_matches('"').trim_matches('\'')`. -/
def credentialsValue (v : RStr) : RStr :=
  trimMatchesC '\'' (trimMatchesC '"' (listTrim v))

/-- The loop body of `Config::parse_config` (src/config.rs:82–100),
processing one line. -/
def configStep (cfg : FileConfig) (line : RStr) : FileConfig :=
  let l := listTrim line
  if l.isEmpty || startsWithChar l '#' then cfg
  else
    match splitOnceC '=' l with
    | some (k, v) =>
      let key := listTrim k
      let value := listTrim v
      if key == str "api_key" then { cfg with api_key := some value }
      else if key == str "default_model" then { cfg with model := some value }
      else cfg
    | none => cfg

/-- `Config::parse_config` (src/config.rs:79–103).  The Rust function
returns `Result` but never an error; the success value is modelled. -/
def parse_config (content : RStr) : FileConfig :=
  (rustLines content).foldl configStep ⟨none, none⟩

/-- The loop body of `Credentials::load` (src/config.rs:131–147),
processing one line (a later matching line overwrites an earlier one). -/
def credentialsStep (creds : Credentials) (line : RStr) : Credentials :=
  let l := listTrim line
  if l.isEmpty || startsWithChar l '#' then creds
  else
    match splitOnceC '=' l with
    | some (k, v) =>
      if listTrim k == str "OPENROUTER_API_KEY" then
        { creds with openrouter_api_key := some (credentialsValue v) }
      else creds
    | none => creds

/-- The line scan of `Credentials::load` (src/config.rs:129–147), applied
to the credentials-file contents. -/
def parseCredentials (content : RStr) : Credentials :=
  (rustLines content).foldl credentialsStep ⟨none⟩

/-- `Credentials::load` with the filesystem abstracted: `none` models a
missing credentials file (src/config.rs:118–150; read failures are not
modelled). -/
def credKeyOf (credentialsContent : Option RStr) : Option RStr :=
  match credentialsContent with
  | some c => (parseCredentials c).openrouter_api_key
  | none => none

/-- `Config::load_config_file` with the filesystem abstracted: `none`
models a missing settings file (src/config.rs:60–77; read failures are
not modelled). -/
def fileCfgOf (configContent : Option RStr) : FileConfig :=
  match configContent with
  | some c => parse_config c
  | none => ⟨none, none⟩

/-- The effective configuration (src/config.rs:8–14). -/
structure Config where
  api_key : RStr
  model : RStr
  prompt : RStr
  verbose : Bool
deriving DecidableEq

/-- The error message of `Config::load` when no API key is found
(src/config.rs:33). -/
def noApiKeyMsg : RStr :=
  str "No API key found. Set OPENROUTER_API_KEY env var, use --api-key, or add to ~/.config/youtube-summary/credentials"

/-- The built-in default prompt (src/config.rs:46–50). -/
def defaultPrompt : RStr :=
  str "Please provide a comprehensive summary of the following YouTube video transcript. Include the main topics discussed, key points, and any important conclusions."

/-- `Config::load` (src/config.rs:17–58) with its effects passed in:
`envApiKey` is the `OPENROUTER_API_KEY` environment variable, and the two
`Option RStr` contents model the settings and credentials files. -/
def Config.load (args : Args) (envApiKey : Option RStr)
    (configContent : Option RStr) (credentialsContent : Option RStr) :
    Except Error Config :=
  let file_config := fileCfgOf configContent
  let credentials := credKeyOf credentialsContent
  let api_key :=
    match args.api_key with
    | some k => some k
    | none =>
      match envApiKey with
      | some k => some k
      | none =>
        match credentials with
        | some k => some k
        | none => file_config.api_key
  match api_key with
  | some k =>
    .ok { api_key := k
          model :=
            match args.model with
            | some m => m
            | none =>
              match file_config.model with
              | some m => m
              | none => DEFAULT_MODEL
          prompt :=
            match args.prompt with
            | some p => p
            | none => defaultPrompt
          verbose := args.verbose }
  | none => .error (.Config noApiKeyMsg)

/-! ## src/openrouter.rs and src/anthropic.rs -/

/-- `ResponseMessage` (src/openrouter.rs:34–37). -/
structure ResponseMessage where
  content : RStr
deriving DecidableEq

/-- `Choice` (src/openrouter.rs:29–32). -/
structure Choice where
  message : ResponseMessage
deriving DecidableEq

/-- The OpenRouter success-response shape `Response`
(src/openrouter.rs:24–27). -/
structure Response where
  choices : List Choice
deriving DecidableEq

/-- `ContentBlock` (src/anthropic.rs:26–29). -/
structure ContentBlock where
  text : RStr
deriving DecidableEq

/-- The Anthropic success-response shape `Response`
(src/anthropic.rs:21–24). -/
structure AnthropicResponse where
  content : List ContentBlock
deriving DecidableEq

/-- The summary-text extraction of the OpenRouter `summarize`
(src/openrouter.rs:121–126): one content fragment per choice, joined with
newlines. -/
def openrouterExtract (r : Response) : RStr :=
  intercalateC (str "\n") (r.choices.map (fun c => c.message.content))

/-- The summary-text extraction of the Anthropic `summarize`
(src/anthropic.rs:95–100): one fragment per content block, joined with
newlines. -/
def anthropicExtract (r : AnthropicResponse) : RStr :=
  intercalateC (str "\n") (r.content.map (fun b => b.text))

/-- The response handling of the OpenRouter `summarize`
(src/openrouter.rs:97–132), after the request was sent.  The serde
decoders are abstract parameters: `parseErrEnv` models
`serde_json::from_str::<ErrorResponse>` (returning the envelope's
`error.message` on success) and `parseOk` models the success-body decode
(returning the decode-error detail on failure).  `statusSuccess` is
`status.is_success()`, `statusText` the `Display` rendering of the
status, and `body` the response body text. -/
def summarizeResult (parseErrEnv : RStr → Option RStr)
    (parseOk : RStr → Except RStr Response)
    (statusSuccess : Bool) (statusText body : RStr) : Except Error RStr :=
  if statusSuccess = false then
    match parseErrEnv body with
    | some msg => .error (.ApiRequest (str "API error (" ++ statusText ++ str "): " ++ msg))
    | none => .error (.ApiRequest (str "API error (" ++ statusText ++ str "): " ++ body))
  else
    match parseOk body with
    | .ok r => .ok (openrouterExtract r)
    | .error e => .error (.ApiRequest (str "Failed to parse response: " ++ e))

/-- The response handling of the Anthropic `summarize`
(src/anthropic.rs:71–107), identical in structure to the OpenRouter one
but over the content-block shape. -/
def anthropicSummarizeResult (parseErrEnv : RStr → Option RStr)
    (parseOk : RStr → Except RStr AnthropicResponse)
    (statusSuccess : Bool) (statusText body : RStr) : Except Error RStr :=
  if statusSuccess = false then
    match parseErrEnv body with
    | some msg => .error (.ApiRequest (str "API error (" ++ statusText ++ str "): " ++ msg))
    | none => .error (.ApiRequest (str "API error (" ++ statusText ++ str "): " ++ body))
  else
    match parseOk body with
    | .ok r => .ok (anthropicExtract r)
    | .error e => .error (.ApiRequest (str "Failed to parse response: " ++ e))

/-- The status check of `list_models` (src/openrouter.rs:149–157): on a
non-success status it returns an `ApiRequest` error built from the raw
body text, without attempting to parse an error envelope; on success it
yields no error. -/
def listModelsStatusCheck (statusSuccess : Bool) (statusText body : RStr) :
    Option Error :=
  if statusSuccess = false then
    some (.ApiRequest (str "API error (" ++ statusText ++ str "): " ++ body))
  else none

/-- `format_context` (src/openrouter.rs:222–230).  The `u64` argument is
modelled as `Nat`; only comparison and division are applied. -/
def format_context (context_length : Nat) : RStr :=
  if context_length ≥ 1000000 then natRepr (context_length / 1000000) ++ str "M"
  else if context_length ≥ 1000 then natRepr (context_length / 1000) ++ str "k"
  else natRepr context_length

/-- `truncate` (src/openrouter.rs:253–259).  `none` models a panic: the
byte slice `&s[..max_len - 3]` panics when `max_len - 3` is not a
character boundary of `s` (and the subtraction itself panics or wraps to
an out-of-bounds index when `max_len < 3`). -/
def truncate (s : RStr) (max_len : Nat) : Option RStr :=
  if rustLen s ≤ max_len then some s
  else if max_len < 3 then none
  else (byteSlice s (max_len - 3)).map (fun p => p ++ str "...")

/-! ## src/main.rs -/

/-- The credentials-file scan of `get_api_key` (src/main.rs:80–91): it
returns the value of the FIRST matching line. -/
def credFirstKey : List RStr → Option RStr
  | [] => none
  | line :: rest =>
    let l := listTrim line
    if startsWithChar l '#' || l.isEmpty then credFirstKey rest
    else
      match splitOnceC '=' l with
      | some (k, v) =>
        if listTrim k == str "OPENROUTER_API_KEY" then some (credentialsValue v)
        else credFirstKey rest
      | none => credFirstKey rest

/-- The error message of `get_api_key` (src/main.rs:94–96). -/
def noApiKeyMsgList : RStr :=
  str "No API key found. Set OPENROUTER_API_KEY env var or use --api-key"

/-- `get_api_key` (src/main.rs:62–97), the API-key resolution used by the
model-listing branch, with its effects passed in.  It takes no
settings-file input because the code reads none. -/
def get_api_key (args : Args) (envApiKey : Option RStr)
    (credentialsContent : Option RStr) : Except Error RStr :=
  match args.api_key with
  | some k => .ok k
  | none =>
    match envApiKey with
    | some k => .ok k
    | none =>
      match credentialsContent with
      | some content =>
        match credFirstKey (rustLines content) with
        | some v => .ok v
        | none => .error (.Config noApiKeyMsgList)
      | none => .error (.Config noApiKeyMsgList)

/-- The exit-code logic of `main`/`run` (src/main.rs:13–26): an
argument-parse failure prints its message and exits 0 (src/main.rs:23–26),
an error from the rest of the pipeline exits 1, success exits 0.  The
pipeline after parsing is abstracted as a function of the parsed
arguments. -/
def mainExitCode (argv : List RStr) (pipeline : Args → Except Error Unit) : Nat :=
  match Args.parse argv with
  | .error _ => 0
  | .ok args =>
    match pipeline args with
    | .ok _ => 0
    | .error _ => 1

/-! ## Supporting lemmas -/

theorem asciiAllowed_toNat_lt {c : Char} (h : asciiAllowed c = true) : c.toNat < 0x80 := by
  simp only [asciiAllowed, Bool.or_eq_true, Bool.and_eq_true, decide_eq_true_eq,
    beq_iff_eq] at h
  rcases h with (((⟨h1, h2⟩ | ⟨h1, h2⟩) | ⟨h1, h2⟩) | h) | h
  · omega
  · omega
  · omega
  · subst h; decide
  · subst h; decide

theorem utf8Width_eq_one {c : Char} (h : c.toNat < 0x80) : utf8Width c = 1 := by
  simp [utf8Width, h]

theorem rustLen_eq_length {l : RStr} (h : ∀ c ∈ l, c.toNat < 0x80) :
    rustLen l = l.length := by
  induction l with
  | nil => rfl
  | cons a t ih =>
    simp only [rustLen, List.length_cons]
    rw [utf8Width_eq_one (h a (List.mem_cons_self a t)),
      ih (fun c hc => h c (List.mem_cons_of_mem a hc))]
    omega

theorem asciiAllowed_rustAllowed {c : Char} (h : asciiAllowed c = true) :
    rustAllowed c = true := by
  simp only [asciiAllowed, Bool.or_eq_true, Bool.and_eq_true, decide_eq_true_eq,
    beq_iff_eq] at h
  rcases h with (((⟨h1, h2⟩ | ⟨h1, h2⟩) | ⟨h1, h2⟩) | h) | h
  · simp [rustAllowed, rustIsAlphanumeric, h1, h2]
  · simp [rustAllowed, rustIsAlphanumeric, h1, h2]
  · simp [rustAllowed, rustIsAlphanumeric, h1, h2]
  · subst h; decide
  · subst h; decide

theorem splitAtFirst_append_cons {a b : Char} (hab : a ≠ b) (pre rest : RStr)
    (h : containsSeq pre [a, b] = false) :
    splitAtFirst [a, b] (pre ++ a :: b :: rest) = some rest := by
  induction pre with
  | nil => simp [splitAtFirst, isPrefixC]
  | cons c t ih =>
    rw [containsSeq, Bool.or_eq_false_iff] at h
    obtain ⟨h1, h2⟩ := h
    rw [List.cons_append, splitAtFirst]
    rw [if_neg ?_, ih h2]
    cases t with
    | nil =>
      simp [isPrefixC, beq_eq_false_iff_ne.mpr (Ne.symm hab)]
    | cons d t2 =>
      simp only [isPrefixC, Bool.and_true] at h1 ⊢
      simp [h1]

theorem takeWhile_append_of_stop (p : Char → Bool) (id post : RStr)
    (hid : ∀ c ∈ id, p c = true)
    (hpost : ∀ c, post.head? = some c → p c = false) :
    (id ++ post).takeWhile p = id := by
  induction id with
  | nil =>
    cases post with
    | nil => rfl
    | cons c t =>
      simp only [List.nil_append, List.takeWhile_cons,
        hpost c rfl, Bool.false_eq_true, if_false]
  | cons a t ih =>
    simp only [List.cons_append, List.takeWhile_cons,
      hid a (List.mem_cons_self a t), if_true, List.cons.injEq, true_and]
    exact ih (fun c hc => hid c (List.mem_cons_of_mem a hc))

theorem reverse_eq_getLast_cons {l : RStr} (h : l ≠ []) :
    l.reverse = l.getLast h :: l.dropLast.reverse := by
  conv_lhs => rw [← List.dropLast_append_getLast h]
  simp [List.reverse_append]

theorem trimWhile_eq_self (p : Char → Bool) (l : RStr)
    (h1 : ∀ a, l.head? = some a → p a = false)
    (h2 : ∀ a, l.getLast? = some a → p a = false) :
    trimWhile p l = l := by
  cases l with
  | nil => rfl
  | cons a t =>
    have ha : p a = false := h1 a rfl
    have hne : (a :: t) ≠ [] := List.cons_ne_nil a t
    have hlast : p ((a :: t).getLast hne) = false :=
      h2 _ (List.getLast?_eq_getLast_of_ne_nil hne)
    unfold trimWhile dropTrailingWhile
    rw [List.dropWhile_cons, if_neg (by simp [ha])]
    rw [reverse_eq_getLast_cons hne, List.dropWhile_cons, if_neg (by simp [hlast])]
    rw [← reverse_eq_getLast_cons hne, List.reverse_reverse]

theorem trimWhile_wrap (c : Char) (v : RStr)
    (h1 : v.head? ≠ some c) (h2 : v.getLast? ≠ some c) :
    trimWhile (fun a => a == c) (c :: (v ++ [c])) = v := by
  unfold trimWhile
  rw [List.dropWhile_cons, if_pos (by simp)]
  cases v with
  | nil => simp [dropTrailingWhile]
  | cons a t =>
    have hac : (a == c) = false :=
      beq_eq_false_iff_ne.mpr (fun he => h1 (by rw [he]; rfl))
    rw [List.cons_append, List.dropWhile_cons, if_neg (by simp [hac])]
    unfold dropTrailingWhile
    rw [show (a :: (t ++ [c])).reverse = c :: (a :: t).reverse by
      simp [List.reverse_append]]
    rw [List.dropWhile_cons, if_pos (by simp)]
    have hne : (a :: t) ≠ [] := List.cons_ne_nil a t
    have hlast : ((a :: t).getLast hne == c) = false := by
      refine beq_eq_false_iff_ne.mpr (fun he => h2 ?_)
      rw [List.getLast?_eq_getLast_of_ne_nil hne, he]
    rw [reverse_eq_getLast_cons hne, List.dropWhile_cons, if_neg (by simp [hlast])]
    rw [← reverse_eq_getLast_cons hne, List.reverse_reverse]

theorem splitOnceC_append (c : Char) (pre rest : RStr) (h : c ∉ pre) :
    splitOnceC c (pre ++ c :: rest) = some (pre, rest) := by
  induction pre with
  | nil => simp [splitOnceC]
  | cons a t ih =>
    have hac : (a == c) = false :=
      beq_eq_false_iff_ne.mpr (fun he => h (by rw [← he]; exact List.mem_cons_self a t))
    have hct : c ∉ t := fun hc => h (List.mem_cons_of_mem a hc)
    rw [List.cons_append, splitOnceC, if_neg (by simp [hac]), ih hct]
    rfl

theorem splitChar_not_mem (c : Char) (l : RStr) (h : c ∉ l) :
    splitChar c l = [l] := by
  induction l with
  | nil => rfl
  | cons a t ih =>
    have hac : (a == c) = false :=
      beq_eq_false_iff_ne.mpr (fun he => h (by rw [← he]; exact List.mem_cons_self a t))
    have hct : c ∉ t := fun hc => h (List.mem_cons_of_mem a hc)
    rw [splitChar, ih hct]
    simp [hac]

theorem rustLines_single (l : RStr) (hnl : '\n' ∉ l) (hne : l ≠ []) :
    rustLines l = [l] := by
  cases l with
  | nil => exact absurd rfl hne
  | cons a t =>
    unfold rustLines
    rw [splitChar_not_mem '\n' _ hnl]
    rfl

theorem parseCredentials_quoted (v : RStr) (hnl : '\n' ∉ v)
    (hh1 : v.head? ≠ some '"') (hh2 : v.head? ≠ some '\'')
    (hl1 : v.getLast? ≠ some '"') (hl2 : v.getLast? ≠ some '\'') :
    parseCredentials (str "OPENROUTER_API_KEY=\"" ++ v ++ str "\"") = ⟨some v⟩ := by
  have hline : str "OPENROUTER_API_KEY=\"" ++ v ++ str "\"" =
      str "OPENROUTER_API_KEY" ++ '=' :: ('"' :: (v ++ ['"'])) := by
    rw [show (str "OPENROUTER_API_KEY=\"" : RStr) =
        str "OPENROUTER_API_KEY" ++ ['=', '"'] from rfl,
      show (str "\"" : RStr) = ['"'] from rfl]
    simp [List.append_assoc]
  rw [hline]
  have hcons : str "OPENROUTER_API_KEY" ++ '=' :: ('"' :: (v ++ ['"'])) =
      'O' :: (str "PENROUTER_API_KEY" ++ '=' :: ('"' :: (v ++ ['"']))) := rfl
  have hne : str "OPENROUTER_API_KEY" ++ '=' :: ('"' :: (v ++ ['"'])) ≠ [] := by
    rw [hcons]; exact List.cons_ne_nil _ _
  have hnlL : '\n' ∉ str "OPENROUTER_API_KEY" ++ '=' :: ('"' :: (v ++ ['"'])) := by
    intro hm
    rcases List.mem_append.mp hm with hm1 | hm2
    · exact absurd hm1 (by decide)
    · rcases List.mem_cons.mp hm2 with he | hm3
      · exact absurd he (by decide)
      · rcases List.mem_cons.mp hm3 with he | hm4
        · exact absurd he (by decide)
        · rcases List.mem_append.mp hm4 with hm5 | hm6
          · exact hnl hm5
          · exact absurd hm6 (by decide)
  unfold parseCredentials
  rw [rustLines_single _ hnlL hne, List.foldl_cons, List.foldl_nil]
  simp only [credentialsStep]
  have htrim : listTrim (str "OPENROUTER_API_KEY" ++ '=' :: ('"' :: (v ++ ['"']))) =
      str "OPENROUTER_API_KEY" ++ '=' :: ('"' :: (v ++ ['"'])) := by
    apply trimWhile_eq_self
    · intro x hx
      rw [hcons] at hx
      simp only [List.head?_cons, Option.some.injEq] at hx
      subst hx; decide
    · intro x hx
      rw [show str "OPENROUTER_API_KEY" ++ '=' :: ('"' :: (v ++ ['"'])) =
          (str "OPENROUTER_API_KEY" ++ '=' :: '"' :: v) ++ ['"'] by simp] at hx
      rw [List.getLast?_concat] at hx
      simp only [Option.some.injEq] at hx
      subst hx; decide
  rw [htrim]
  have hguard : ((str "OPENROUTER_API_KEY" ++ '=' :: ('"' :: (v ++ ['"']))).isEmpty ||
      startsWithChar (str "OPENROUTER_API_KEY" ++ '=' :: ('"' :: (v ++ ['"']))) '#') =
      false := by rw [hcons]; rfl
  have hsplit : splitOnceC '=' (str "OPENROUTER_API_KEY" ++ '=' :: ('"' :: (v ++ ['"']))) =
      some (str "OPENROUTER_API_KEY", '"' :: (v ++ ['"'])) :=
    splitOnceC_append '=' _ _ (by decide)
  have hkey : (listTrim (str "OPENROUTER_API_KEY") == str "OPENROUTER_API_KEY") = true := by
    decide
  rw [hguard, hsplit]
  simp only [Bool.false_eq_true, if_false, hkey, if_true]
  have hval : credentialsValue ('"' :: (v ++ ['"'])) = v := by
    unfold credentialsValue
    have ht : listTrim ('"' :: (v ++ ['"'])) = '"' :: (v ++ ['"']) := by
      apply trimWhile_eq_self
      · intro x hx
        simp only [List.head?_cons, Option.some.injEq] at hx
        subst hx; decide
      · intro x hx
        rw [show ('"' :: (v ++ ['"'])) = ('"' :: v) ++ ['"'] by simp] at hx
        rw [List.getLast?_concat] at hx
        simp only [Option.some.injEq] at hx
        subst hx; decide
    rw [ht]
    rw [show trimMatchesC '"' ('"' :: (v ++ ['"'])) = v from trimWhile_wrap '"' v hh1 hl1]
    unfold trimMatchesC
    apply trimWhile_eq_self
    · intro x hx
      refine beq_eq_false_iff_ne.mpr (fun he => hh2 ?_)
      rw [← he]; exact hx
    · intro x hx
      refine beq_eq_false_iff_ne.mpr (fun he => hl2 ?_)
      rw [← he]; exact hx
  simp only [hval]

theorem parse_config_keeps_quotes (v : RStr) (hnl : '\n' ∉ v) :
    parse_config (str "api_key=\"" ++ v ++ str "\"") =
      ⟨some ('"' :: (v ++ ['"'])), none⟩ := by
  have hline : str "api_key=\"" ++ v ++ str "\"" =
      str "api_key" ++ '=' :: ('"' :: (v ++ ['"'])) := by
    rw [show (str "api_key=\"" : RStr) = str "api_key" ++ ['=', '"'] from rfl,
      show (str "\"" : RStr) = ['"'] from rfl]
    simp [List.append_assoc]
  rw [hline]
  have hcons : str "api_key" ++ '=' :: ('"' :: (v ++ ['"'])) =
      'a' :: (str "pi_key" ++ '=' :: ('"' :: (v ++ ['"']))) := rfl
  have hne : str "api_key" ++ '=' :: ('"' :: (v ++ ['"'])) ≠ [] := by
    rw [hcons]; exact List.cons_ne_nil _ _
  have hnlL : '\n' ∉ str "api_key" ++ '=' :: ('"' :: (v ++ ['"'])) := by
    intro hm
    rcases List.mem_append.mp hm with hm1 | hm2
    · exact absurd hm1 (by decide)
    · rcases List.mem_cons.mp hm2 with he | hm3
      · exact absurd he (by decide)
      · rcases List.mem_cons.mp hm3 with he | hm4
        · exact absurd he (by decide)
        · rcases List.mem_append.mp hm4 with hm5 | hm6
          · exact hnl hm5
          · exact absurd hm6 (by decide)
  unfold parse_config
  rw [rustLines_single _ hnlL hne, List.foldl_cons, List.foldl_nil]
  simp only [configStep]
  have htrim : listTrim (str "api_key" ++ '=' :: ('"' :: (v ++ ['"']))) =
      str "api_key" ++ '=' :: ('"' :: (v ++ ['"'])) := by
    apply trimWhile_eq_self
    · intro x hx
      rw [hcons] at hx
      simp only [List.head?_cons, Option.some.injEq] at hx
      subst hx; decide
    · intro x hx
      rw [show str "api_key" ++ '=' :: ('"' :: (v ++ ['"'])) =
          (str "api_key" ++ '=' :: '"' :: v) ++ ['"'] by simp] at hx
      rw [List.getLast?_concat] at hx
      simp only [Option.some.injEq] at hx
      subst hx; decide
  rw [htrim]
  have hguard : ((str "api_key" ++ '=' :: ('"' :: (v ++ ['"']))).isEmpty ||
      startsWithChar (str "api_key" ++ '=' :: ('"' :: (v ++ ['"']))) '#') = false := by
    rw [hcons]; rfl
  have hsplit : splitOnceC '=' (str "api_key" ++ '=' :: ('"' :: (v ++ ['"']))) =
      some (str "api_key", '"' :: (v ++ ['"'])) :=
    splitOnceC_append '=' _ _ (by decide)
  have hkey : (listTrim (str "api_key") == str "api_key") = true := by decide
  rw [hguard, hsplit]
  simp only [Bool.false_eq_true, if_false, hkey, if_true]
  have ht : listTrim ('"' :: (v ++ ['"'])) = '"' :: (v ++ ['"']) := by
    apply trimWhile_eq_self
    · intro x hx
      simp only [List.head?_cons, Option.some.injEq] at hx
      subst hx; decide
    · intro x hx
      rw [show ('"' :: (v ++ ['"'])) = ('"' :: v) ++ ['"'] by simp] at hx
      rw [List.getLast?_concat] at hx
      simp only [Option.some.injEq] at hx
      subst hx; decide
  simp only [ht]

/-- The value processing described by the spec's words for the
credentials file: the value is trimmed and then stripped of exactly one
layer of surrounding single or double quotes. -/
def specStripOneLayer (raw : RStr) : RStr :=
  let t := listTrim raw
  if 2 ≤ t.length && t.head? == some '"' && t.getLast? == some '"' then
    (t.drop 1).dropLast
  else if 2 ≤ t.length && t.head? == some '\'' && t.getLast? == some '\'' then
    (t.drop 1).dropLast
  else t

/-! ## Claim theorems -/

/-- C2 (amended): for every reference whose trimmed form is exactly 11
characters, each an ASCII alphanumeric, `-` or `_` (so 11 UTF-8 bytes),
`extract_video_id` returns the trimmed reference unchanged. -/
theorem bare_id_roundtrip (url : RStr) (h11 : (listTrim url).length = 11)
    (hall : (listTrim url).all asciiAllowed = true) :
    extract_video_id url = .ok (listTrim url) := by
  rw [List.all_eq_true] at hall
  have hlen : rustLen (listTrim url) = 11 := by
    rw [rustLen_eq_length (fun c hc => asciiAllowed_toNat_lt (hall c hc)), h11]
  have hr : (listTrim url).all rustAllowed = true :=
    List.all_eq_true.mpr (fun c hc => asciiAllowed_rustAllowed (hall c hc))
  simp [extract_video_id, hlen, hr]

/-- Witness for C2's amended theorem: a surrounding-whitespace reference
whose trimmed form is a bare 11-character id round-trips. -/
theorem bare_id_roundtrip_witness :
    extract_video_id (str " dQw4w9WgXcQ ") = .ok (str "dQw4w9WgXcQ") :=
  (bare_id_roundtrip (str " dQw4w9WgXcQ ") (by decide) (by decide)).trans (by decide)

/-- C2 counterexample: `éaaaaaaaaaa` is, after trimming, exactly 11
characters, each alphanumeric under Rust's Unicode `is_alphanumeric`
(`é` is a letter), yet `extract_video_id` rejects it: the code compares
the UTF-8 byte length (12 here) against 11, so the claim as stated is
false. -/
theorem bare_id_multibyte_cex :
    (listTrim (str "éaaaaaaaaaa")).length = 11 ∧
    (listTrim (str "éaaaaaaaaaa")).all rustAllowed = true ∧
    extract_video_id (str "éaaaaaaaaaa") =
      .error (.InvalidYoutubeUrl (str "Could not extract video ID from: éaaaaaaaaaa")) := by
  decide

/-- C7: for every context length `n`, the model-listing context formatter
returns the raw decimal rendering of `n` when `n < 1000`, the decimal
rendering of `n / 1000` followed by `k` when `1000 ≤ n < 1000000`, and
the decimal rendering of `n / 1000000` followed by `M` when
`n ≥ 1000000`, using integer division with no decimals. -/
theorem format_context_spec (n : Nat) :
    (n < 1000 → format_context n = natRepr n) ∧
    (1000 ≤ n → n < 1000000 → format_context n = natRepr (n / 1000) ++ str "k") ∧
    (1000000 ≤ n → format_context n = natRepr (n / 1000000) ++ str "M") := by
  refine ⟨fun h => ?_, fun h1 h2 => ?_, fun h => ?_⟩ <;> simp only [format_context]
  · rw [if_neg (by omega), if_neg (by omega)]
  · rw [if_neg (by omega), if_pos (by omega)]
  · rw [if_pos h]

/-- Witness for C7: `format_context` at 500, 12000 and 2000000. -/
theorem format_context_spec_witness :
    format_context 500 = str "500" ∧ format_context 12000 = str "12k" ∧
    format_context 2000000 = str "2M" :=
  ⟨((format_context_spec 500).1 (by decide)).trans (by decide),
   ((format_context_spec 12000).2.1 (by decide) (by decide)).trans (by decide),
   ((format_context_spec 2000000).2.2 (by decide)).trans (by decide)⟩

/-- C8: the model-listing truncation is NOT total.  At width 44 (the
call-site width for model ids) and an input of 40 `a`s followed by three
`é`s (46 UTF-8 bytes), the byte slice `&s[..41]` inside `truncate` falls
inside the two-byte encoding of the first `é` and the code panics
(modelled as `none`) instead of returning a truncated string — an
uncatchable fault, contradicting the claim. -/
theorem truncate_panics_on_multibyte :
    rustLen (str "aaaaaaaaaaaaaaaaaaaaaaaaaaaaaaaaaaaaaaaaééé") = 46 ∧
    truncate (str "aaaaaaaaaaaaaaaaaaaaaaaaaaaaaaaaaaaaaaaaééé") 44 = none := by
  decide

/-- C3 (amended): for every reference containing `youtube.com/watch`,
decomposed around the first `v=` marker as `pre ++ "v=" ++ id ++ post`
with `id` the maximal run of alphanumeric/`-`/`_` characters after the
marker (`post` empty or starting with a disallowed character, so trailing
query parameters stop the run), watch-URL extraction collects exactly
that run and succeeds with it exactly when its UTF-8 byte length is 11;
in particular a longer qualifying run is never truncated to 11 — the step
fails instead. -/
theorem watch_url_extraction_spec (pre id post : RStr)
    (hw : containsSeq (pre ++ str "v=" ++ id ++ post) (str "youtube.com/watch") = true)
    (hfirst : containsSeq pre (str "v=") = false)
    (hid : id.all rustAllowed = true)
    (hpost : ∀ c, post.head? = some c → rustAllowed c = false) :
    extract_from_watch_url (pre ++ str "v=" ++ id ++ post) =
      if rustLen id == 11 then some id else none := by
  have hv : str "v=" = ['v', '='] := rfl
  have hre : pre ++ str "v=" ++ id ++ post = pre ++ 'v' :: '=' :: (id ++ post) := by
    rw [hv]; simp [List.append_assoc]
  have hsplit : splitAtFirst (str "v=") (pre ++ str "v=" ++ id ++ post) =
      some (id ++ post) := by
    rw [hre, hv]
    exact splitAtFirst_append_cons (by decide) pre (id ++ post) (hv ▸ hfirst)
  have htake : (id ++ post).takeWhile rustAllowed = id :=
    takeWhile_append_of_stop rustAllowed id post (List.all_eq_true.mp hid) hpost
  simp only [extract_from_watch_url, hw, if_true, hsplit, htake]

/-- Witness for C3's amended theorem: the canonical watch URL with a
trailing `&t=30` query parameter yields exactly the 11-byte id. -/
theorem watch_url_extraction_spec_witness :
    extract_from_watch_url
        (str "https://www.youtube.com/watch?" ++ str "v=" ++ str "dQw4w9WgXcQ" ++ str "&t=30") =
      some (str "dQw4w9WgXcQ") :=
  (watch_url_extraction_spec (str "https://www.youtube.com/watch?") (str "dQw4w9WgXcQ")
    (str "&t=30") (by decide) (by decide) (by decide)
    (fun c hc => by
      rw [show (str "&t=30").head? = some '&' from rfl] at hc
      cases hc; decide)).trans (by decide)

/-- C3 counterexample: in `youtube.com/watch?v=éaaaaaaaaaa` the collected
run after `v=` is the full 11-character run `éaaaaaaaaaa` (every character
qualifies under Rust's Unicode `is_alphanumeric`), yet extraction fails:
the code compares the run's UTF-8 byte length (12) with 11, so "succeeds
exactly when its length is 11" is false as stated. -/
theorem watch_url_multibyte_cex :
    splitAtFirst (str "v=") (str "youtube.com/watch?v=éaaaaaaaaaa") =
      some (str "éaaaaaaaaaa") ∧
    (str "éaaaaaaaaaa").takeWhile rustAllowed = str "éaaaaaaaaaa" ∧
    (str "éaaaaaaaaaa").length = 11 ∧
    extract_from_watch_url (str "youtube.com/watch?v=éaaaaaaaaaa") = none := by
  decide

/-- C4 (amended): on every non-success HTTP status, `summarize` returns
`ApiRequest("API error (<status>): <provider message>")` when the body
parses as the provider error envelope and
`ApiRequest("API error (<status>): <raw body>")` otherwise, while
`list_models` always returns the raw-body form, never attempting the
envelope parse. -/
theorem api_error_classification :
    (∀ (pe : RStr → Option RStr) (pok : RStr → Except RStr Response) (st body msg : RStr),
      pe body = some msg →
      summarizeResult pe pok false st body =
        .error (.ApiRequest (str "API error (" ++ st ++ str "): " ++ msg))) ∧
    (∀ (pe : RStr → Option RStr) (pok : RStr → Except RStr Response) (st body : RStr),
      pe body = none →
      summarizeResult pe pok false st body =
        .error (.ApiRequest (str "API error (" ++ st ++ str "): " ++ body))) ∧
    (∀ st body : RStr,
      listModelsStatusCheck false st body =
        some (.ApiRequest (str "API error (" ++ st ++ str "): " ++ body))) := by
  refine ⟨fun pe pok st body msg h => ?_, fun pe pok st body h => ?_, fun st body => ?_⟩
  · simp [summarizeResult, h]
  · simp [summarizeResult, h]
  · simp [listModelsStatusCheck]

/-- Witness for C4's amended theorem: concrete envelope and raw cases. -/
theorem api_error_classification_witness :
    summarizeResult (fun _ => some (str "boom")) (fun _ => .error (str "x")) false
        (str "502 Bad Gateway") (str "BODY") =
      .error (.ApiRequest (str "API error (502 Bad Gateway): boom")) ∧
    summarizeResult (fun _ => none) (fun _ => .error (str "x")) false
        (str "502 Bad Gateway") (str "BODY") =
      .error (.ApiRequest (str "API error (502 Bad Gateway): BODY")) :=
  ⟨(api_error_classification.1 (fun _ => some (str "boom")) (fun _ => .error (str "x"))
      (str "502 Bad Gateway") (str "BODY") (str "boom") rfl).trans (by decide),
   (api_error_classification.2.1 (fun _ => none) (fun _ => .error (str "x"))
      (str "502 Bad Gateway") (str "BODY") rfl).trans (by decide)⟩

/-- C4 counterexample: a response body that does parse as the provider
error envelope (yielding message `boom` under the given decoder) is
still surfaced raw by `list_models` — its error carries the raw body, not
the envelope message, so the claim is false for the listModels
operation. -/
theorem list_models_error_uses_raw_body_cex :
    (fun b => if b == str "BODY" then some (str "boom") else none) (str "BODY") =
      some (str "boom") ∧
    listModelsStatusCheck false (str "502 Bad Gateway") (str "BODY") =
      some (.ApiRequest (str "API error (502 Bad Gateway): BODY")) ∧
    str "API error (502 Bad Gateway): BODY" ≠ str "API error (502 Bad Gateway): boom" := by
  exact ⟨rfl, by decide, by decide⟩

/-- C5: on a success status, `summarize` returns the newline-joined
concatenation of the returned fragments in order (one per choice for the
OpenRouter shape, one per content block for the Anthropic shape); zero
fragments yield `.ok ""`, a valid non-error outcome, whereas transcript
fetching returns a `TranscriptFetch` error when the joined transcript
text is empty. -/
theorem summarize_success_joins_fragments :
    (∀ (pe : RStr → Option RStr) (pok : RStr → Except RStr Response) (st body : RStr)
        (r : Response), pok body = .ok r →
      summarizeResult pe pok true st body =
        .ok (intercalateC (str "\n") (r.choices.map (fun c => c.message.content)))) ∧
    (∀ (pe : RStr → Option RStr) (pok : RStr → Except RStr Response) (st body : RStr),
      pok body = .ok ⟨[]⟩ → summarizeResult pe pok true st body = .ok []) ∧
    (∀ (pe : RStr → Option RStr) (pok : RStr → Except RStr AnthropicResponse) (st body : RStr)
        (r : AnthropicResponse), pok body = .ok r →
      anthropicSummarizeResult pe pok true st body =
        .ok (intercalateC (str "\n") (r.content.map (fun b => b.text)))) ∧
    (∀ snippets : List RStr, intercalateC (str " ") snippets = [] →
      transcriptFromSnippets snippets = .error (.TranscriptFetch (str "Transcript is empty"))) := by
  refine ⟨fun pe pok st body r h => ?_, fun pe pok st body h => ?_,
    fun pe pok st body r h => ?_, fun snippets h => ?_⟩
  · simp [summarizeResult, openrouterExtract, h]
  · simp [summarizeResult, openrouterExtract, h, intercalateC]
  · simp [anthropicSummarizeResult, anthropicExtract, h]
  · simp [transcriptFromSnippets, h]

/-- Witness for C5: two fragments join with a newline, zero fragments
yield the empty string without error, and an empty snippet list makes
transcript fetching fail. -/
theorem summarize_success_joins_fragments_witness :
    summarizeResult (fun _ => none) (fun _ => .ok ⟨[⟨⟨str "A"⟩⟩, ⟨⟨str "B"⟩⟩]⟩) true
        (str "200 OK") (str "") = .ok (str "A\nB") ∧
    summarizeResult (fun _ => none) (fun _ => .ok ⟨[]⟩) true (str "200 OK") (str "") =
      .ok [] ∧
    transcriptFromSnippets [] = .error (.TranscriptFetch (str "Transcript is empty")) :=
  ⟨(summarize_success_joins_fragments.1 (fun _ => none)
      (fun _ => .ok ⟨[⟨⟨str "A"⟩⟩, ⟨⟨str "B"⟩⟩]⟩) (str "200 OK") (str "") _ rfl).trans
      (by decide),
   summarize_success_joins_fragments.2.1 (fun _ => none) (fun _ => .ok ⟨[]⟩)
      (str "200 OK") (str "") rfl,
   summarize_success_joins_fragments.2.2.2 [] rfl⟩

/-- C6 (amended): in credentials-file parsing every value is trimmed and
then stripped of ALL surrounding double-quote characters and then all
surrounding single-quote characters (so `KEY="val"` yields `val`, and the
doubled `KEY=""val""` also yields `val` rather than `"val"`); this quote
stripping is applied only to the credentials file — settings-file parsing
only trims, leaving quotes in values intact. -/
theorem quote_stripping_spec :
    (∀ v : RStr, '\n' ∉ v → v.head? ≠ some '"' → v.head? ≠ some '\'' →
      v.getLast? ≠ some '"' → v.getLast? ≠ some '\'' →
      parseCredentials (str "OPENROUTER_API_KEY=\"" ++ v ++ str "\"") = ⟨some v⟩) ∧
    parseCredentials (str "OPENROUTER_API_KEY=\"\"val\"\"") = ⟨some (str "val")⟩ ∧
    (∀ v : RStr, '\n' ∉ v →
      parse_config (str "api_key=\"" ++ v ++ str "\"") =
        ⟨some ('"' :: (v ++ ['"'])), none⟩) :=
  ⟨parseCredentials_quoted, by decide, parse_config_keeps_quotes⟩

/-- Witness for C6's amended theorem: `KEY="val"` yields `val` for
credentials and keeps its quotes for settings. -/
theorem quote_stripping_spec_witness :
    parseCredentials (str "OPENROUTER_API_KEY=\"" ++ str "val" ++ str "\"") =
      ⟨some (str "val")⟩ ∧
    parse_config (str "api_key=\"" ++ str "val" ++ str "\"") =
      ⟨some ('"' :: (str "val" ++ ['"'])), none⟩ :=
  ⟨quote_stripping_spec.1 (str "val") (by decide) (by decide) (by decide)
      (by decide) (by decide),
   quote_stripping_spec.2.2 (str "val") (by decide)⟩

/-- C6 counterexample: for the line `OPENROUTER_API_KEY=""val""` the code
strips BOTH layers of double quotes (`trim_matches` removes all leading
and trailing matches), producing `val`, while stripping exactly one layer
— as the claim states — would produce `"val"`. -/
theorem credentials_quote_strip_cex :
    credentialsValue (str "\"\"val\"\"") = str "val" ∧
    specStripOneLayer (str "\"\"val\"\"") = str "\"val\"" ∧
    parseCredentials (str "OPENROUTER_API_KEY=\"\"val\"\"") = ⟨some (str "val")⟩ ∧
    str "val" ≠ str "\"val\"" := by
  decide

/-- C9 counterexample: the argument-parse failure `Unknown argument:
--bogus` makes the process exit with code 0, not 1 — `Args::parse`
errors are routed through `std::process::exit(0)` (src/main.rs:23–26). -/
theorem parse_failure_exits_zero_cex :
    Args.parse [str "youtube-summary", str "--bogus"] =
      .error (str "Unknown argument: --bogus") ∧
    mainExitCode [str "youtube-summary", str "--bogus"] (fun _ => .ok ()) = 0 ∧
    mainExitCode [str "youtube-summary", str "--bogus"] (fun _ => .ok ()) ≠ 1 := by
  decide

/-- C9 (amended): the process exits 0 on success, on an explicit help
request (the help text is the parse "error" and the pipeline never
runs), and on every argument-parsing failure; it exits 1 exactly on
runtime errors arising after successful argument parsing. -/
theorem exit_code_spec :
    (∀ (argv : List RStr) (pl : Args → Except Error Unit) (msg : RStr),
      Args.parse argv = .error msg → mainExitCode argv pl = 0) ∧
    (∀ (argv : List RStr) (pl : Args → Except Error Unit) (a : Args),
      Args.parse argv = .ok a → pl a = .ok () → mainExitCode argv pl = 0) ∧
    (∀ (argv : List RStr) (pl : Args → Except Error Unit) (a : Args) (e : Error),
      Args.parse argv = .ok a → pl a = .error e → mainExitCode argv pl = 1) ∧
    (∀ (argv : List RStr) (pl : Args → Except Error Unit),
      2 ≤ argv.length →
      (argv.any fun a => a == str "--help" || a == str "-h") = true →
      Args.parse argv = .error usageText ∧ mainExitCode argv pl = 0) := by
  refine ⟨fun argv pl msg h => ?_, fun argv pl a h1 h2 => ?_,
    fun argv pl a e h1 h2 => ?_, fun argv pl hlen hhelp => ?_⟩
  · simp [mainExitCode, h]
  · simp [mainExitCode, h1, h2]
  · simp [mainExitCode, h1, h2]
  · have hp : Args.parse argv = .error usageText := by
      simp only [Args.parse]
      rw [if_neg (by omega), if_pos hhelp]
    exact ⟨hp, by simp [mainExitCode, hp]⟩

/-- Witness for C9's amended theorem: a pipeline error after a good parse
exits 1; a help request exits 0. -/
theorem exit_code_spec_witness :
    mainExitCode [str "youtube-summary", str "dQw4w9WgXcQ"]
      (fun _ => .error (.Config (str "boom"))) = 1 ∧
    mainExitCode [str "youtube-summary", str "-h"]
      (fun _ => .error (.Config (str "boom"))) = 0 :=
  ⟨exit_code_spec.2.2.1 _ _ ⟨some (str "dQw4w9WgXcQ"), none, none, none, none, false, none⟩
      (.Config (str "boom")) (by decide) rfl,
   (exit_code_spec.2.2.2 [str "youtube-summary", str "-h"] _ (by decide) (by decide)).2⟩

/-- C10: the model-listing key resolution (`get_api_key`) consults only
the CLI flag, the environment variable and the credentials file — it
takes no settings-file input at all — so whenever the settings file is
the only source supplying an `api_key`, list-models fails with a `Config`
error while `Config::load` resolves that same key. -/
theorem list_models_ignores_settings_file :
    ∀ (args : Args) (envK : Option RStr) (settings k : RStr),
      args.api_key = none → envK = none →
      (parse_config settings).api_key = some k →
      get_api_key args envK none = .error (.Config noApiKeyMsgList) ∧
      (Config.load args envK (some settings) none).map Config.api_key = .ok k := by
  intro args envK settings k h1 h2 h3
  constructor
  · simp [get_api_key, h1, h2]
  · simp [Config.load, credKeyOf, fileCfgOf, h1, h2, h3, Except.map]

/-- Witness for C10: with the settings file as the only key source,
list-models fails while `Config::load` succeeds with that key. -/
theorem list_models_ignores_settings_file_witness :
    get_api_key ⟨none, none, none, none, none, false, some none⟩ none none =
      .error (.Config noApiKeyMsgList) ∧
    (Config.load ⟨none, none, none, none, none, false, some none⟩ none
      (some (str "api_key=D")) none).map Config.api_key = .ok (str "D") :=
  list_models_ignores_settings_file _ _ _ _ rfl rfl (by decide)

/-- C1 counterexample: with all four sources absent `Config::load` fails
with the `Config` error message of src/config.rs:33, and that message
does not name the settings file under any of its designations (it names
only the environment variable, the CLI flag and the credentials file), so
the claim that the message names all four sources is false. -/
theorem no_api_key_message_cex :
    Config.load ⟨none, none, none, none, none, false, none⟩ none none none =
      .error (.Config noApiKeyMsg) ∧
    containsSeq noApiKeyMsg (str "youtube-summary/config") = false ∧
    containsSeq noApiKeyMsg (str "config file") = false ∧
    containsSeq noApiKeyMsg (str "settings") = false := by
  decide

/-- C1 (amended): `Config::load` selects the effective apiKey by
precedence CLI flag, then environment variable, then credentials-file
value, then settings-file value; when all four are absent it fails with a
`Config` error whose message names the CLI flag, the environment variable
and the credentials file — but not the settings file. -/
theorem api_key_precedence :
    (∀ (args : Args) (envK : Option RStr) (cfgC credC : Option RStr) (a : RStr),
      args.api_key = some a →
      (Config.load args envK cfgC credC).map Config.api_key = .ok a) ∧
    (∀ (args : Args) (envK : Option RStr) (cfgC credC : Option RStr) (b : RStr),
      args.api_key = none → envK = some b →
      (Config.load args envK cfgC credC).map Config.api_key = .ok b) ∧
    (∀ (args : Args) (envK : Option RStr) (cfgC credC : Option RStr) (c : RStr),
      args.api_key = none → envK = none → credKeyOf credC = some c →
      (Config.load args envK cfgC credC).map Config.api_key = .ok c) ∧
    (∀ (args : Args) (envK : Option RStr) (cfgC credC : Option RStr) (d : RStr),
      args.api_key = none → envK = none → credKeyOf credC = none →
      (fileCfgOf cfgC).api_key = some d →
      (Config.load args envK cfgC credC).map Config.api_key = .ok d) ∧
    (∀ (args : Args) (envK : Option RStr) (cfgC credC : Option RStr),
      args.api_key = none → envK = none → credKeyOf credC = none →
      (fileCfgOf cfgC).api_key = none →
      Config.load args envK cfgC credC = .error (.Config noApiKeyMsg)) ∧
    (containsSeq noApiKeyMsg (str "--api-key") = true ∧
     containsSeq noApiKeyMsg (str "OPENROUTER_API_KEY") = true ∧
     containsSeq noApiKeyMsg (str "credentials") = true ∧
     containsSeq noApiKeyMsg (str "youtube-summary/config") = false ∧
     containsSeq noApiKeyMsg (str "config file") = false ∧
     containsSeq noApiKeyMsg (str "settings") = false) := by
  refine ⟨fun args envK cfgC credC a h => ?_, fun args envK cfgC credC b h1 h2 => ?_,
    fun args envK cfgC credC c h1 h2 h3 => ?_, fun args envK cfgC credC d h1 h2 h3 h4 => ?_,
    fun args envK cfgC credC h1 h2 h3 h4 => ?_, by decide⟩
  · simp [Config.load, Except.map, h]
  · simp [Config.load, Except.map, h1, h2]
  · simp [Config.load, Except.map, h1, h2, h3]
  · simp [Config.load, Except.map, h1, h2, h3, h4]
  · simp [Config.load, Except.map, h1, h2, h3, h4]

/-- Witness for C1's amended theorem: the CLI key wins over all three
other sources; the credentials key wins over the settings key; all
absent yields the `Config` error. -/
theorem api_key_precedence_witness :
    (Config.load ⟨none, none, none, some (str "A"), none, false, none⟩ (some (str "B"))
      (some (str "api_key=D")) (some (str "OPENROUTER_API_KEY=C"))).map Config.api_key =
      .ok (str "A") ∧
    (Config.load ⟨none, none, none, none, none, false, none⟩ none
      (some (str "api_key=D")) (some (str "OPENROUTER_API_KEY=C"))).map Config.api_key =
      .ok (str "C") ∧
    Config.load ⟨none, none, none, none, none, false, none⟩ none none none =
      .error (.Config noApiKeyMsg) :=
  ⟨api_key_precedence.1 _ _ _ _ _ rfl,
   api_key_precedence.2.2.1 _ _ _ _ _ rfl rfl (by decide),
   api_key_precedence.2.2.2.2.1 _ _ _ _ rfl rfl rfl rfl⟩

end YtSum
